import Mathlib

/-!
Shallow embedding of `src/main.py` of the youtube-scrape repository: a batch
job that reads video/playlist identifiers from BigQuery, resolves their
human-readable names through the YouTube Data API in chunks of at most 50
identifiers per request, joins the results while dropping rows whose playlist
name is "Popular uploads" (case-insensitively), and republishes the joined
table.  External services (the YouTube API client, the BigQuery client, the
HTTP layer) are modelled as oracle parameters; everything the Python code
itself computes is translated directly.
-/

/- ----------------------------------------------------------------
   Python dictionaries (string keys and values)
   ---------------------------------------------------------------- -/

/-- A Python `dict[str, str]` as an association list.  `dinsert` keeps at most
one entry per key, so first-match lookup agrees with Python semantics. -/
abbrev Dict := List (String × String)

/-- Python `d.get(k)` as an `Option`: the value of the entry whose key is `k`,
if present. -/
def dlookup (d : Dict) (k : String) : Option String :=
  (d.find? (fun e => e.1 == k)).map (fun e => e.2)

/-- Python `d.get(k, default)`. -/
def dget (d : Dict) (k dflt : String) : String :=
  (dlookup d k).getD dflt

/-- Python `d[k] = v`: overwrite the entry in place when the key is present,
otherwise append a new entry. -/
def dinsert (d : Dict) (k v : String) : Dict :=
  if d.any (fun e => e.1 == k) then
    d.map (fun e => if e.1 == k then (k, v) else e)
  else d ++ [(k, v)]

/-- Python `str.lower()` as used in `main.py` line 328.  The strings compared
by the code are ASCII, on which `Char.toLower` agrees with Python. -/
def lower (s : String) : String := String.mk (s.data.map Char.toLower)

/- ----------------------------------------------------------------
   Name Resolver: get_video_names / get_playlist_names
   (src/main.py lines 121-162 and 165-206)
   ---------------------------------------------------------------- -/

/-- The shape of one YouTube list-endpoint response as the code reads it:
either a JSON object with an `items` array (each item contributing an id and
a snippet title, lines 148-152 / 192-196), or an object without `items`
(lines 153-154 / 197-198). -/
inductive ApiResponse where
  | items (entries : List (String × String)) : ApiResponse
  | noItems : ApiResponse

/-- An oracle for one YouTube list endpoint (`youtube.videos().list(...)` or
`youtube.playlists().list(...)` followed by `request.execute()`): given the
chunk of ids the request carries, either a response or a raised exception
(`Except.error`). -/
abbrev YtApi := List String → Except String ApiResponse

/-- Whether a call to the oracle returns normally (no exception raised). -/
def isOkResp : Except String ApiResponse → Bool
  | Except.ok _ => true
  | Except.error _ => false

/-- Fuel-indexed worker for `chunks50`; the fuel is an upper bound on the list
length, so it never runs out.  Structural recursion keeps the definition
kernel-evaluable. -/
def chunks50Loop {α : Type} : Nat → List α → List (List α)
  | _, [] => []
  | 0, _ :: _ => []
  | Nat.succ fuel, x :: xs => ((x :: xs).take 50) :: chunks50Loop fuel ((x :: xs).drop 50)

/-- The chunking performed by `for i in range(0, len(ids), 50)` with
`chunk_ids = ids[i : i + 50]` (src/main.py lines 141-142 and 184-185). -/
def chunks50 {α : Type} (l : List α) : List (List α) :=
  chunks50Loop l.length l

/-- The shared body of the resolver loop (lines 141-154 / 184-198): for each
chunk issue one request; an exception stops the loop with the error, an
`items` response folds every entry into the accumulated dictionary, a
response without `items` is logged and skipped.  The `Nat` component counts
the requests actually issued. -/
def runChunks (api : YtApi) : List (List String) → Dict → Nat × Except String Dict
  | [], acc => (0, Except.ok acc)
  | c :: cs, acc =>
    match api c with
    | Except.error e => (1, Except.error e)
    | Except.ok (ApiResponse.items entries) =>
      let r := runChunks api cs (entries.foldl (fun d e => dinsert d e.1 e.2) acc)
      (r.1 + 1, r.2)
    | Except.ok ApiResponse.noItems =>
      let r := runChunks api cs acc
      (r.1 + 1, r.2)

/-- `get_video_names` (src/main.py lines 121-162), instrumented with the
number of lookup requests issued: an empty id list returns the empty
dictionary before any request (lines 135-137); any exception in the loop
makes the whole call return `{}` (lines 157-162). -/
def get_video_names_instr (youtube : YtApi) (video_ids : List String) : Nat × Dict :=
  if video_ids = [] then (0, [])
  else
    match runChunks youtube (chunks50 video_ids) [] with
    | (n, Except.ok d) => (n, d)
    | (n, Except.error _) => (n, [])

/-- The dictionary returned by `get_video_names`. -/
def get_video_names (youtube : YtApi) (video_ids : List String) : Dict :=
  (get_video_names_instr youtube video_ids).2

/-- `get_playlist_names` (src/main.py lines 165-206), instrumented with the
number of lookup requests issued; its body is the same loop as
`get_video_names` against the playlists endpoint (lines 178-180, 184-198,
201-206). -/
def get_playlist_names_instr (youtube : YtApi) (playlist_ids : List String) : Nat × Dict :=
  if playlist_ids = [] then (0, [])
  else
    match runChunks youtube (chunks50 playlist_ids) [] with
    | (n, Except.ok d) => (n, d)
    | (n, Except.error _) => (n, [])

/-- The dictionary returned by `get_playlist_names`. -/
def get_playlist_names (youtube : YtApi) (playlist_ids : List String) : Dict :=
  (get_playlist_names_instr youtube playlist_ids).2

/- ----------------------------------------------------------------
   Join/Filter stage (src/main.py lines 323-340)
   ---------------------------------------------------------------- -/

/-- One element of `combined_data` (src/main.py lines 333-340). -/
structure OutputRow where
  video_id : String
  video_name : String
  playlist_id : String
  playlist_name : String
deriving DecidableEq, Repr

/-- The loop of src/main.py lines 323-340: for each (video_id, playlist_id)
pair, look up the playlist name with sentinel "Playlist name not found"; skip
the pair when its lowered playlist name equals "popular uploads"; otherwise
emit a row whose video name is looked up with sentinel
"Video name not found". -/
def combine_data : List (String × String) → Dict → Dict → List OutputRow
  | [], _, _ => []
  | (video_id, playlist_id) :: rest, video_names, playlist_names =>
    let playlist_name := dget playlist_names playlist_id "Playlist name not found"
    if lower playlist_name = "popular uploads" then
      combine_data rest video_names playlist_names
    else
      { video_id := video_id
        video_name := dget video_names video_id "Video name not found"
        playlist_id := playlist_id
        playlist_name := playlist_name } :: combine_data rest video_names playlist_names

/-- The keep-condition of the loop, as a Boolean predicate on one pair: the
pair is kept exactly when its resolved playlist name, lowered, differs from
"popular uploads". -/
def keepPair (playlist_names : Dict) (q : String × String) : Bool :=
  !(lower (dget playlist_names q.2 "Playlist name not found") == "popular uploads")

/-- The row built by the loop body for one kept pair. -/
def mkRow (video_names playlist_names : Dict) (q : String × String) : OutputRow :=
  { video_id := q.1
    video_name := dget video_names q.1 "Video name not found"
    playlist_id := q.2
    playlist_name := dget playlist_names q.2 "Playlist name not found" }

/- ----------------------------------------------------------------
   Table Publisher: upload_data_to_bigquery (src/main.py lines 209-253)
   ---------------------------------------------------------------- -/

/-- The fixed destination schema (src/main.py lines 223-228). -/
structure SchemaField where
  name : String
  fieldType : String
  mode : String
deriving DecidableEq, Repr

/-- `schema` of `upload_data_to_bigquery`. -/
def bigquery_schema : List SchemaField :=
  [ { name := "video_id", fieldType := "STRING", mode := "REQUIRED" }
  , { name := "video_name", fieldType := "STRING", mode := "NULLABLE" }
  , { name := "playlist_id", fieldType := "STRING", mode := "REQUIRED" }
  , { name := "playlist_name", fieldType := "STRING", mode := "NULLABLE" } ]

/-- An oracle for the BigQuery client calls made by `upload_data_to_bigquery`:
`delete_table` and `create_table` either return or raise (`Except.error`);
`insert_rows_json` returns its list of per-row errors (empty on success). -/
structure BqClient where
  delete_table : Except String Unit
  create_table : Except String Unit
  insert_rows_json : List OutputRow → List String

/-- What one call of `upload_data_to_bigquery` did: which steps ran, whether
the table ended up created, and the error list returned by the insert step
when it ran (`none` when the insert was skipped). -/
structure PublishTrace where
  deleteAttempted : Bool
  createAttempted : Bool
  insertAttempted : Bool
  tableCreated : Bool
  insertErrors : Option (List String)
deriving DecidableEq, Repr

/-- `upload_data_to_bigquery` (src/main.py lines 209-253): a raised deletion
error is caught and the function returns (lines 233-238) before creating the
table; a raised creation error is caught and the function returns (lines
241-246) before inserting; otherwise `insert_rows_json` runs and its error
list is only logged (lines 248-253), never raised. -/
def upload_data_to_bigquery (client : BqClient) (data : List OutputRow) : PublishTrace :=
  match client.delete_table with
  | Except.error _ =>
    { deleteAttempted := true, createAttempted := false, insertAttempted := false
      tableCreated := false, insertErrors := none }
  | Except.ok _ =>
    match client.create_table with
    | Except.error _ =>
      { deleteAttempted := true, createAttempted := true, insertAttempted := false
        tableCreated := false, insertErrors := none }
    | Except.ok _ =>
      { deleteAttempted := true, createAttempted := true, insertAttempted := true
        tableCreated := true, insertErrors := some (client.insert_rows_json data) }

/- ----------------------------------------------------------------
   HTTP trigger (src/main.py lines 1-8 and 256-349)
   ---------------------------------------------------------------- -/

/-- The observable effect of one request to the registered view function. -/
structure HttpTriggerResult where
  response : String
  batch_runs_started : Nat
deriving DecidableEq, Repr

/-- The view function registered by `@app.post("/")` (src/main.py lines 6-8).
Its entire body is `return f"Data is updated!"`: it starts no run of the
batch job.  The later `def main()` on line 256 (the batch job) rebinds the
module-level name only; Flask keeps the function object registered on line 6,
so the batch `main` is never reached from the endpoint. -/
def http_post_root : HttpTriggerResult :=
  { response := "Data is updated!", batch_runs_started := 0 }

/- ----------------------------------------------------------------
   Concrete oracles and rows used to exercise the theorems
   ---------------------------------------------------------------- -/

/-- A stub endpoint that always answers with a response carrying no items. -/
def okStubApi : YtApi := fun _ => Except.ok ApiResponse.noItems

/-- A stub endpoint that raises on every request. -/
def raisingStubApi : YtApi := fun _ => Except.error "HttpError 500"

/-- A BigQuery client whose delete step raises. -/
def clientDeleteRaises : BqClient :=
  { delete_table := Except.error "delete failed"
    create_table := Except.ok ()
    insert_rows_json := fun _ => [] }

/-- A BigQuery client whose delete step succeeds and whose create step
raises. -/
def clientCreateRaises : BqClient :=
  { delete_table := Except.ok ()
    create_table := Except.error "create failed"
    insert_rows_json := fun _ => [] }

/-- A BigQuery client whose delete and create steps succeed and whose insert
step returns a nonempty error list. -/
def clientInsertErrors : BqClient :=
  { delete_table := Except.ok ()
    create_table := Except.ok ()
    insert_rows_json := fun _ => ["row 0 rejected"] }

/-- The row produced by the Join/Filter stage for the pair ("v9", "p9") under
empty name mappings. -/
def row9 : OutputRow :=
  { video_id := "v9", video_name := "Video name not found"
    playlist_id := "p9", playlist_name := "Playlist name not found" }

/-- The row produced by the Join/Filter stage for the pair ("v1", "p1") with
video mapping {"v1": "Song A"} and empty playlist mapping. -/
def row10 : OutputRow :=
  { video_id := "v1", video_name := "Song A"
    playlist_id := "p1", playlist_name := "Playlist name not found" }

/- ----------------------------------------------------------------
   Helper lemmas
   ---------------------------------------------------------------- -/

/-- The fuel of `chunks50Loop` is irrelevant as long as it bounds the list
length. -/
lemma chunks50Loop_congr {α : Type} :
    ∀ (f g : Nat) (l : List α), l.length ≤ f → l.length ≤ g →
      chunks50Loop f l = chunks50Loop g l := by
  intro f
  induction f with
  | zero =>
    intro g l hf _
    have hl : l = [] := List.eq_nil_of_length_eq_zero (Nat.le_zero.mp hf)
    subst hl
    cases g <;> rfl
  | succ f ih =>
    intro g l hf hg
    cases l with
    | nil => cases g <;> rfl
    | cons x xs =>
      cases g with
      | zero => simp at hg
      | succ g =>
        show ((x :: xs).take 50) :: chunks50Loop f ((x :: xs).drop 50) =
          ((x :: xs).take 50) :: chunks50Loop g ((x :: xs).drop 50)
        have hlen : ((x :: xs).drop 50).length = xs.length + 1 - 50 := by
          simp [List.length_drop]
        have h1 : ((x :: xs).drop 50).length ≤ f := by
          rw [hlen]; simp at hf; omega
        have h2 : ((x :: xs).drop 50).length ≤ g := by
          rw [hlen]; simp at hg; omega
        rw [ih g _ h1 h2]

/-- Unfolding equation of `chunks50` on a nonempty list. -/
lemma chunks50_cons {α : Type} (x : α) (xs : List α) :
    chunks50 (x :: xs) = ((x :: xs).take 50) :: chunks50 ((x :: xs).drop 50) := by
  show chunks50Loop ((x :: xs).length) (x :: xs) = _
  have : chunks50Loop ((x :: xs).length) (x :: xs) =
      ((x :: xs).take 50) :: chunks50Loop (xs.length) ((x :: xs).drop 50) := by
    simp [List.length_cons, chunks50Loop]
  rw [this]
  unfold chunks50
  have hlen : ((x :: xs).drop 50).length ≤ xs.length := by
    simp [List.length_drop]
  rw [chunks50Loop_congr (xs.length) (((x :: xs).drop 50).length) _ hlen (Nat.le_refl _)]

/-- The number of chunks is the ceiling of the list length divided by 50. -/
lemma chunks50_length {α : Type} :
    ∀ (n : Nat) (l : List α), l.length ≤ n →
      (chunks50 l).length = (l.length + 49) / 50 := by
  intro n
  induction n with
  | zero =>
    intro l h
    have hl : l = [] := List.eq_nil_of_length_eq_zero (Nat.le_zero.mp h)
    subst hl; simp [chunks50, chunks50Loop]
  | succ n ih =>
    intro l h
    cases l with
    | nil => simp [chunks50, chunks50Loop]
    | cons x xs =>
      rw [chunks50_cons, List.length_cons]
      have hd : ((x :: xs).drop 50).length ≤ n := by
        simp [List.length_drop] at *; omega
      rw [ih _ hd]
      simp [List.length_drop]
      omega

/-- Every chunk carries at most 50 elements. -/
lemma chunks50_le {α : Type} :
    ∀ (n : Nat) (l : List α), l.length ≤ n →
      ∀ c ∈ chunks50 l, c.length ≤ 50 := by
  intro n
  induction n with
  | zero =>
    intro l h c hc
    have hl : l = [] := List.eq_nil_of_length_eq_zero (Nat.le_zero.mp h)
    subst hl; simp [chunks50, chunks50Loop] at hc
  | succ n ih =>
    intro l h c hc
    cases l with
    | nil => simp [chunks50, chunks50Loop] at hc
    | cons x xs =>
      rw [chunks50_cons] at hc
      rcases List.mem_cons.mp hc with h1 | h2
      · subst h1
        simp
      · have hd : ((x :: xs).drop 50).length ≤ n := by
          simp [List.length_drop] at *; omega
        exact ih _ hd c h2

/-- Concatenating the chunks in order restores the input list. -/
lemma chunks50_flatten {α : Type} :
    ∀ (n : Nat) (l : List α), l.length ≤ n →
      (chunks50 l).flatten = l := by
  intro n
  induction n with
  | zero =>
    intro l h
    have hl : l = [] := List.eq_nil_of_length_eq_zero (Nat.le_zero.mp h)
    subst hl; rfl
  | succ n ih =>
    intro l h
    cases l with
    | nil => rfl
    | cons x xs =>
      rw [chunks50_cons, List.flatten_cons]
      have hd : ((x :: xs).drop 50).length ≤ n := by
        simp [List.length_drop] at *; omega
      rw [ih _ hd, List.take_append_drop]

/-- When no chunk lookup raises, the loop issues one request per chunk. -/
lemma runChunks_count (api : YtApi) :
    ∀ (cs : List (List String)) (acc : Dict),
      (∀ c ∈ cs, isOkResp (api c) = true) →
      (runChunks api cs acc).1 = cs.length := by
  intro cs
  induction cs with
  | nil => intro acc _; rfl
  | cons c cs ih =>
    intro acc h
    have hc : isOkResp (api c) = true := h c (List.mem_cons_self c cs)
    have hrest : ∀ d ∈ cs, isOkResp (api d) = true := by
      intro d hd; exact h d (List.mem_cons_of_mem c hd)
    cases hac : api c with
    | error e => rw [hac] at hc; simp [isOkResp] at hc
    | ok resp =>
      cases resp with
      | items entries => simp [runChunks, hac, ih _ hrest]
      | noItems => simp [runChunks, hac, ih _ hrest]

/-- If some chunk lookup raises, the loop ends in that raised error. -/
lemma runChunks_error (api : YtApi) :
    ∀ (cs : List (List String)) (acc : Dict),
      (∃ c ∈ cs, isOkResp (api c) = false) →
      ∃ e, (runChunks api cs acc).2 = Except.error e := by
  intro cs
  induction cs with
  | nil => intro acc h; simp at h
  | cons c cs ih =>
    intro acc h
    cases hac : api c with
    | error e => exact ⟨e, by simp [runChunks, hac]⟩
    | ok resp =>
      have hrest : ∃ d ∈ cs, isOkResp (api d) = false := by
        rcases h with ⟨d, hd, hbad⟩
        rcases List.mem_cons.mp hd with rfl | hd2
        · rw [hac] at hbad; simp [isOkResp] at hbad
        · exact ⟨d, hd2, hbad⟩
      cases resp with
      | items entries =>
        rcases ih (entries.foldl (fun d e => dinsert d e.1 e.2) acc) hrest with ⟨e, he⟩
        exact ⟨e, by simp [runChunks, hac, he]⟩
      | noItems =>
        rcases ih acc hrest with ⟨e, he⟩
        exact ⟨e, by simp [runChunks, hac, he]⟩

/-- The Join/Filter loop equals filtering the kept pairs and mapping the row
constructor over them, in order. -/
lemma combine_eq_filter_map :
    ∀ (pairs : List (String × String)) (vn pn : Dict),
      combine_data pairs vn pn = (pairs.filter (keepPair pn)).map (mkRow vn pn) := by
  intro pairs
  induction pairs with
  | nil => intro vn pn; rfl
  | cons q rest ih =>
    intro vn pn
    obtain ⟨v, p⟩ := q
    by_cases h : lower (dget pn p "Playlist name not found") = "popular uploads"
    · have hk : keepPair pn (v, p) = false := by
        simp [keepPair, h]
      simp [combine_data, h, List.filter_cons, hk, ih vn pn]
    · have hk : keepPair pn (v, p) = true := by
        simp [keepPair, h]
      simp [combine_data, h, List.filter_cons, hk, ih vn pn, mkRow]

/-- Every row of the Join/Filter output comes from a kept input pair. -/
lemma mem_combine_data {pairs : List (String × String)} {vn pn : Dict}
    {r : OutputRow} (h : r ∈ combine_data pairs vn pn) :
    ∃ q ∈ pairs, keepPair pn q = true ∧ r = mkRow vn pn q := by
  rw [combine_eq_filter_map] at h
  rcases List.mem_map.mp h with ⟨q, hq, hr⟩
  rcases List.mem_filter.mp hq with ⟨hq1, hq2⟩
  exact ⟨q, hq1, hq2, hr.symm⟩

/-- When no chunk lookup raises, the instrumented resolver issues exactly
ceil(N/50) requests. -/
lemma resolver_count (api : YtApi) (ids : List String)
    (h : ∀ c ∈ chunks50 ids, isOkResp (api c) = true) :
    (get_video_names_instr api ids).1 = (ids.length + 49) / 50 := by
  by_cases hids : ids = []
  · subst hids; simp [get_video_names_instr]
  · have hc := runChunks_count api (chunks50 ids) [] h
    have hlen := chunks50_length (α := String) ids.length ids (Nat.le_refl _)
    unfold get_video_names_instr
    rw [if_neg hids]
    rcases hr : runChunks api (chunks50 ids) [] with ⟨n, res⟩
    rw [hr] at hc
    cases res with
    | ok d => simpa using hc.trans hlen
    | error e => simpa using hc.trans hlen

/-- If some chunk lookup raises, the resolver returns the empty dictionary. -/
lemma resolver_error (api : YtApi) (ids : List String)
    (h : ∃ c ∈ chunks50 ids, isOkResp (api c) = false) :
    get_video_names api ids = [] := by
  by_cases hids : ids = []
  · subst hids; rfl
  · rcases runChunks_error api (chunks50 ids) [] h with ⟨e, he⟩
    unfold get_video_names get_video_names_instr
    rw [if_neg hids]
    rcases hr : runChunks api (chunks50 ids) [] with ⟨n, res⟩
    rw [hr] at he
    cases res with
    | ok d => simp at he
    | error msg => simp

/- ----------------------------------------------------------------
   Claim theorems
   ---------------------------------------------------------------- -/

/-- Claim C1 (code-bug exhibit): the view function registered for HTTP POST /
returns the fixed acknowledgement "Data is updated!" but starts zero runs of
the batch synchronization job, because the batch `main` of line 256 only
shadows the module name after the handler of lines 6-8 was registered.  The
claim says each POST starts one run; the code never does. -/
theorem claim_C1 :
    http_post_root.response = "Data is updated!" ∧
    http_post_root.batch_runs_started = 0 :=
  ⟨rfl, rfl⟩

/-- Claim C2: for an identifier list of length N, each resolver variant
issues exactly ceil(N/50) = (N + 49) / 50 lookup requests (given that no
lookup raises; the raising path is claim C3), every chunk carries at most 50
identifiers, and the chunks concatenated in order restore the input list. -/
theorem claim_C2 (apiV apiP : YtApi) (video_ids playlist_ids : List String)
    (hV : ∀ c ∈ chunks50 video_ids, isOkResp (apiV c) = true)
    (hP : ∀ c ∈ chunks50 playlist_ids, isOkResp (apiP c) = true) :
    (get_video_names_instr apiV video_ids).1 = (video_ids.length + 49) / 50 ∧
    (get_playlist_names_instr apiP playlist_ids).1 = (playlist_ids.length + 49) / 50 ∧
    (∀ c ∈ chunks50 video_ids, c.length ≤ 50) ∧
    (∀ c ∈ chunks50 playlist_ids, c.length ≤ 50) ∧
    (chunks50 video_ids).flatten = video_ids ∧
    (chunks50 playlist_ids).flatten = playlist_ids := by
  refine ⟨resolver_count apiV video_ids hV, ?_,
    chunks50_le video_ids.length video_ids (Nat.le_refl _),
    chunks50_le playlist_ids.length playlist_ids (Nat.le_refl _),
    chunks50_flatten video_ids.length video_ids (Nat.le_refl _),
    chunks50_flatten playlist_ids.length playlist_ids (Nat.le_refl _)⟩
  exact resolver_count apiP playlist_ids hP

/-- Witness for claim C2 at a concrete input: with two video ids and one
playlist id against an endpoint that never raises, each variant issues one
request. -/
theorem claim_C2_witness :
    (get_video_names_instr okStubApi ["vidA", "vidB"]).1 =
      ((["vidA", "vidB"] : List String).length + 49) / 50 ∧
    (get_playlist_names_instr okStubApi ["plA"]).1 =
      ((["plA"] : List String).length + 49) / 50 := by
  have h := claim_C2 okStubApi okStubApi ["vidA", "vidB"] ["plA"]
    (by intro c _; rfl) (by intro c _; rfl)
  exact ⟨h.1, h.2.1⟩

/-- Claim C3: if the lookup of any chunk raises, the resolver (either
variant) returns the empty mapping, discarding the entries accumulated from
earlier successful chunks of the same call. -/
theorem claim_C3 (apiV apiP : YtApi) (video_ids playlist_ids : List String)
    (hV : ∃ c ∈ chunks50 video_ids, isOkResp (apiV c) = false)
    (hP : ∃ c ∈ chunks50 playlist_ids, isOkResp (apiP c) = false) :
    get_video_names apiV video_ids = [] ∧
    get_playlist_names apiP playlist_ids = [] :=
  ⟨resolver_error apiV video_ids hV, resolver_error apiP playlist_ids hP⟩

/-- Witness for claim C3 at a concrete input: an endpoint that raises on
every request yields the empty mapping for both variants. -/
theorem claim_C3_witness :
    get_video_names raisingStubApi ["vidA"] = [] ∧
    get_playlist_names raisingStubApi ["plA"] = [] :=
  claim_C3 raisingStubApi raisingStubApi ["vidA"] ["plA"]
    ⟨["vidA"], by decide, rfl⟩ ⟨["plA"], by decide, rfl⟩

/-- Claim C4: on an empty identifier list, each resolver variant issues zero
lookup requests and returns the empty mapping. -/
theorem claim_C4 (apiV apiP : YtApi) :
    get_video_names_instr apiV [] = (0, []) ∧
    get_video_names apiV [] = [] ∧
    get_playlist_names_instr apiP [] = (0, []) ∧
    get_playlist_names apiP [] = [] :=
  ⟨rfl, rfl, rfl, rfl⟩

/-- Claim C5: the Join/Filter stage excludes a pair exactly when its resolved
playlist name, lowered with no trimming, equals "popular uploads"; in
particular the mixed casing "PoPuLaR UpLoAdS" is excluded while
"popular uploads " with a trailing space is not. -/
theorem claim_C5 :
    (∀ (vn pn : Dict) (v p : String),
        combine_data [(v, p)] vn pn = [] ↔
          lower (dget pn p "Playlist name not found") = "popular uploads") ∧
    combine_data [("v", "p")] [] [("p", "PoPuLaR UpLoAdS")] = [] ∧
    combine_data [("v", "p")] [] [("p", "popular uploads ")] ≠ [] := by
  refine ⟨?_, by decide, by decide⟩
  intro vn pn v p
  by_cases h : lower (dget pn p "Playlist name not found") = "popular uploads" <;>
    simp [combine_data, h]

/-- Claim C6: on the spec's example input the Join/Filter stage produces
exactly one row, for the pair ("v2", "p2"), with the video-name sentinel and
playlist name "Mix". -/
theorem claim_C6 :
    combine_data [("v1", "p1"), ("v2", "p2")] [("v1", "Song A")]
        [("p1", "Popular Uploads"), ("p2", "Mix")] =
      [{ video_id := "v2", video_name := "Video name not found",
         playlist_id := "p2", playlist_name := "Mix" }] := by
  decide

/-- Claim C7: every row the Join/Filter stage hands to the publisher has a
playlist name whose lowering differs from the excluded label
"popular uploads", and that playlist name is either the resolved name of the
row's playlist id or the sentinel "Playlist name not found" (never null: in
this embedding it is always a present string). -/
theorem claim_C7 (pairs : List (String × String)) (vn pn : Dict)
    (r : OutputRow) (h : r ∈ combine_data pairs vn pn) :
    lower r.playlist_name ≠ "popular uploads" ∧
    ((∃ nm, dlookup pn r.playlist_id = some nm ∧ r.playlist_name = nm) ∨
      r.playlist_name = "Playlist name not found") := by
  rcases mem_combine_data h with ⟨q, _, hkeep, hr⟩
  subst hr
  constructor
  · intro hcon
    have hx : lower (dget pn q.2 "Playlist name not found") = "popular uploads" := hcon
    simp [keepPair, hx] at hkeep
  · show (∃ nm, dlookup pn q.2 = some nm ∧
        dget pn q.2 "Playlist name not found" = nm) ∨
      dget pn q.2 "Playlist name not found" = "Playlist name not found"
    cases hl : dlookup pn q.2 with
    | none => right; simp [dget, hl]
    | some nm => left; exact ⟨nm, rfl, by simp [dget, hl]⟩

/-- Witness for claim C7 at a concrete input: the single row produced for the
pair ("v9", "p9") under empty mappings. -/
theorem claim_C7_witness :
    lower row9.playlist_name ≠ "popular uploads" ∧
    ((∃ nm, dlookup [] row9.playlist_id = some nm ∧ row9.playlist_name = nm) ∨
      row9.playlist_name = "Playlist name not found") :=
  claim_C7 [("v9", "p9")] [] [] row9 (by decide)

/-- Claim C8: in the Table Publisher, a raised delete error skips both the
create and insert steps; a raised create error skips the insert step; and
when delete and create both return, the call completes with the table created
and the insert step's returned errors merely recorded, never raised. -/
theorem claim_C8 (client : BqClient) (data : List OutputRow) :
    ((∃ e, client.delete_table = Except.error e) →
      (upload_data_to_bigquery client data).createAttempted = false ∧
      (upload_data_to_bigquery client data).insertAttempted = false) ∧
    (client.delete_table = Except.ok () →
      (∃ e, client.create_table = Except.error e) →
      (upload_data_to_bigquery client data).insertAttempted = false ∧
      (upload_data_to_bigquery client data).tableCreated = false) ∧
    (client.delete_table = Except.ok () → client.create_table = Except.ok () →
      (upload_data_to_bigquery client data).tableCreated = true ∧
      (upload_data_to_bigquery client data).insertErrors =
        some (client.insert_rows_json data)) := by
  refine ⟨?_, ?_, ?_⟩
  · rintro ⟨e, he⟩
    simp [upload_data_to_bigquery, he]
  · rintro hd ⟨e, he⟩
    simp [upload_data_to_bigquery, hd, he]
  · intro hd hc
    simp [upload_data_to_bigquery, hd, hc]

/-- Witness for claim C8 at concrete clients: one whose delete raises, one
whose create raises, and one whose insert returns an error list. -/
theorem claim_C8_witness :
    ((upload_data_to_bigquery clientDeleteRaises []).createAttempted = false ∧
      (upload_data_to_bigquery clientDeleteRaises []).insertAttempted = false) ∧
    ((upload_data_to_bigquery clientCreateRaises []).insertAttempted = false ∧
      (upload_data_to_bigquery clientCreateRaises []).tableCreated = false) ∧
    ((upload_data_to_bigquery clientInsertErrors []).tableCreated = true ∧
      (upload_data_to_bigquery clientInsertErrors []).insertErrors =
        some ["row 0 rejected"]) :=
  ⟨(claim_C8 clientDeleteRaises []).1 ⟨"delete failed", rfl⟩,
    (claim_C8 clientCreateRaises []).2.1 rfl ⟨"create failed", rfl⟩,
    (claim_C8 clientInsertErrors []).2.2 rfl rfl⟩

/-- Claim C9: the Join/Filter stage is order-preserving: its output equals
the kept pairs, in input order, mapped through the row constructor, and hence
the output's (video_id, playlist_id) sequence is a subsequence of the input
pair sequence. -/
theorem claim_C9 (pairs : List (String × String)) (vn pn : Dict) :
    combine_data pairs vn pn = (pairs.filter (keepPair pn)).map (mkRow vn pn) ∧
    List.Sublist
      ((combine_data pairs vn pn).map (fun r => (r.video_id, r.playlist_id)))
      pairs := by
  refine ⟨combine_eq_filter_map pairs vn pn, ?_⟩
  rw [combine_eq_filter_map pairs vn pn, List.map_map]
  have hid : ((fun r : OutputRow => (r.video_id, r.playlist_id)) ∘ mkRow vn pn) = id := by
    funext q
    obtain ⟨v, p⟩ := q
    rfl
  rw [hid, List.map_id]
  exact List.filter_sublist pairs

/-- Claim C10: every row produced by the Join/Filter stage carries a video
name that is either the resolved name of its video id or the sentinel
"Video name not found" (never null: in this embedding it is always a present
string), even though the published schema declares the video_name column
NULLABLE. -/
theorem claim_C10 (pairs : List (String × String)) (vn pn : Dict)
    (r : OutputRow) (h : r ∈ combine_data pairs vn pn) :
    ((∃ nm, dlookup vn r.video_id = some nm ∧ r.video_name = nm) ∨
      r.video_name = "Video name not found") ∧
    (∃ f ∈ bigquery_schema, f.name = "video_name" ∧ f.mode = "NULLABLE") := by
  refine ⟨?_, ⟨{ name := "video_name", fieldType := "STRING", mode := "NULLABLE" },
    by decide, rfl, rfl⟩⟩
  rcases mem_combine_data h with ⟨q, _, _, hr⟩
  subst hr
  show (∃ nm, dlookup vn q.1 = some nm ∧
      dget vn q.1 "Video name not found" = nm) ∨
    dget vn q.1 "Video name not found" = "Video name not found"
  cases hl : dlookup vn q.1 with
  | none => right; simp [dget, hl]
  | some nm => left; exact ⟨nm, rfl, by simp [dget, hl]⟩

/-- Witness for claim C10 at a concrete input: the row produced for the pair
("v1", "p1") with video mapping {"v1": "Song A"}. -/
theorem claim_C10_witness :
    ((∃ nm, dlookup [("v1", "Song A")] row10.video_id = some nm ∧
        row10.video_name = nm) ∨
      row10.video_name = "Video name not found") ∧
    (∃ f ∈ bigquery_schema, f.name = "video_name" ∧ f.mode = "NULLABLE") :=
  claim_C10 [("v1", "p1")] [("v1", "Song A")] [] row10 (by decide)
